import Mathlib

/-!
Verification of the regbot value-normalization core against its
natural-language specification.

The development shallowly embeds the relevant Python sources:
* `src/regbot/drugsfda/fetch.py`   (namespace `DrugsFdaLegacy`)
* `src/regbot/fetch/drugsfda.py`   (namespace `DrugsFdaStrict`)
* `src/regbot/rxclass/fetch.py`    (namespace `RxClass`)
* `src/regbot/fetch/clinical_trials.py` (namespace `ClinicalTrials`)
plus the enum vocabularies shared by `drugsfda/schema.py` and
`fetch/drugsfda.py`, and by `rxclass/schema.py` and `fetch/rxclass.py`
(the two copies are textually identical, so one embedding serves both).

Python values are modelled by `Val`; raised exceptions by `Except PyErr`;
error-level log emission by an explicit `List String` component.
-/

/-- A Python `datetime.datetime` as produced by the date normalizers:
`strptime` fills unparsed components with their defaults (day/month 1,
time 00:00:00) and `.replace(tzinfo=UTC)` marks the instant as UTC. -/
structure PyDateTime where
  year : Nat
  month : Nat
  day : Nat
  hour : Nat
  minute : Nat
  second : Nat
  utc : Bool
deriving DecidableEq, Repr

/-- Python runtime values as they flow through the fetch modules: decoded
JSON scalars/arrays/objects, plus the normalized datatypes the assemblers
produce (bool, int, datetime, enum member).  An enum member is identified
by its enum class name and its canonical value string (all the embedded
enums are `str`-mixin enums whose members are uniquely determined by their
string values). -/
inductive Val where
  | null
  | bool (b : Bool)
  | int (n : Int)
  | str (s : String)
  | date (d : PyDateTime)
  | enum (cls : String) (member : String)
  | list (xs : List Val)
  | dict (fields : List (String × Val))

/-- Python exceptions raised by the embedded code. -/
inductive PyErr where
  | keyError (k : String)
  | valueError (msg : String)
  | typeError (msg : String)
deriving DecidableEq, Repr

/-- A decoded JSON object (Python `dict`): association list with the first
binding of a key authoritative (Python dict keys are unique). -/
abbrev PyDict := List (String × Val)

/-- The `data[k]`: raises `KeyError` when the key is absent. -/
def dget (data : PyDict) (k : String) : Except PyErr Val :=
  match data.lookup k with
  | some v => .ok v
  | none => .error (.keyError k)

/-- The `data.get(k)`: `None` when the key is absent. -/
def dget0 (data : PyDict) (k : String) : Val :=
  match data.lookup k with
  | some v => v
  | none => .null

/-- The `k in data` (membership is true even when the stored value is `None`). -/
def dmem (data : PyDict) (k : String) : Bool :=
  (data.lookup k).isSome

/-- Coerce a value that the Python code passes to a `str`-typed parameter;
a non-string raises (as the subsequent `str` method calls would). -/
def asStr (v : Val) : Except PyErr String :=
  match v with
  | .str s => .ok s
  | _ => .error (.typeError "expected str")

/-- Coerce a value passed to a `str | None`-typed parameter. -/
def asStrOrNone (v : Val) : Except PyErr (Option String) :=
  match v with
  | .null => .ok none
  | .str s => .ok (some s)
  | _ => .error (.typeError "expected str or None")

/-- Coerce a value the Python code iterates over as a list. -/
def asList (v : Val) : Except PyErr (List Val) :=
  match v with
  | .list xs => .ok xs
  | _ => .error (.typeError "expected list")

/-- Coerce a value the Python code subscripts as a dict. -/
def asDict (v : Val) : Except PyErr PyDict :=
  match v with
  | .dict fs => .ok fs
  | _ => .error (.typeError "expected dict")

/-- Python truthiness (`if not raw_value: ...`) for the values that occur
here: `None`, empty strings, empty collections, `False` and `0` are falsy. -/
def pyFalsy (v : Val) : Bool :=
  match v with
  | .null => true
  | .bool b => !b
  | .int n => n == 0
  | .str s => s.isEmpty
  | .list xs => xs.isEmpty
  | .dict fs => fs.isEmpty
  | .date _ => false
  | .enum _ _ => false

/-- Python `str.lower()` (the embedded inputs are ASCII). -/
def pyLower (s : String) : String :=
  String.mk (s.toList.map Char.toLower)

/-- Python `str(x)` for the scalar values interpolated into f-strings here. -/
def pyStr (v : Val) : String :=
  match v with
  | .null => "None"
  | .bool b => if b then "True" else "False"
  | .int n => toString n
  | .str s => s
  | _ => "object"

/-- An enum vocabulary: the Python `str`-mixin `Enum` class seen as its
class name, its canonical member value strings (in declaration order), and
the alias table its `_missing_` hook passes to `map_to_enum`. -/
structure Vocab where
  name : String
  members : List String
  aliases : List (String × String)

/-- Modelled from the spec: `map_to_enum` is defined in
`regbot/fetch/class_utils.py` / `regbot/normalize_utils.py`, which are not
among the provided sources (only their callers are).  Per the spec it is
"a single generic alias-table lookup function parameterized by the
enumeration's own alias table (a mapping from normalized-string to
canonical member)": it returns the mapped canonical member when the value
is a key of the alias table and no member otherwise, whereupon Python's
`Enum` constructor raises `ValueError`. -/
def map_to_enum (aliases : List (String × String)) (value : String) : Option String :=
  aliases.lookup value

/-- The Python `Enum` constructor `Cls(value)`: the member whose value
equals `value`, else whatever the `_missing_` hook (`map_to_enum` over the
class's alias table) supplies; `none` means Python raises `ValueError`. -/
def enumNew (voc : Vocab) (value : String) : Option String :=
  if voc.members.contains value then some value else map_to_enum voc.aliases value

/-- Replace every occurrence of `", "` by `"_"` (Python
`str.replace(", ", "_")`, scanning left to right). -/
def replCommaSpace : List Char → List Char
  | [] => []
  | [c] => [c]
  | c1 :: c2 :: rest =>
    if c1 = ',' ∧ c2 = ' ' then '_' :: replCommaSpace rest
    else c1 :: replCommaSpace (c2 :: rest)

/-- Python `str.replace(a, b)` for single characters. -/
def replChar (a b : Char) (l : List Char) : List Char :=
  l.map (fun c => if c = a then b else c)

/-- Python `str.replace(a, "")` for a single character. -/
def dropCharAll (a : Char) (l : List Char) : List Char :=
  l.filter (fun c => c ≠ a)

/-- The raw-string transform `_enumify` applies before the enum lookup
(`drugsfda/fetch.py` lines 52-58 and `fetch/drugsfda.py` lines 462-468):
lowercase; `", "` to `"_"`; `" "` to `"_"`; `"-"` to `"_"`; strip `"("`
and `")"`; `"/"` to `"_"`. -/
def enumTransform (s : String) : String :=
  String.mk
    (replChar '/' '_'
      (dropCharAll ')'
        (dropCharAll '('
          (replChar '-' '_'
            (replChar ' ' '_'
              (replCommaSpace (s.toList.map Char.toLower)))))))

/-- The composite lookup of `_enumify`: transform, then the enum
constructor (member values first, then the alias table). -/
def enumifyValue (voc : Vocab) (s : String) : Option String :=
  enumNew voc (enumTransform s)

/-- Fold a digit string into a number. -/
def digitsToNat (l : List Char) : Nat :=
  l.foldl (fun acc c => acc * 10 + (c.toNat - '0'.toNat)) 0

/-- Gregorian leap year, as Python's `datetime` uses. -/
def isLeapYear (y : Nat) : Bool :=
  y % 4 = 0 ∧ (y % 100 ≠ 0 ∨ y % 400 = 0)

/-- Days in a month, as validated by the `datetime` constructor. -/
def daysInMonth (y m : Nat) : Nat :=
  if m = 2 then (if isLeapYear y then 29 else 28)
  else if m = 4 ∨ m = 6 ∨ m = 9 ∨ m = 11 then 30
  else 31

/-- Construct the midnight-UTC instant `strptime(...).replace(tzinfo=UTC)`
yields, validating the ranges `datetime` enforces (year 1-9999, month
1-12, day within the month). -/
def mkDT (y m d : Nat) : Option PyDateTime :=
  if 1 ≤ y ∧ y ≤ 9999 ∧ 1 ≤ m ∧ m ≤ 12 ∧ 1 ≤ d ∧ d ≤ daysInMonth y m then
    some ⟨y, m, d, 0, 0, 0, true⟩
  else none

/-- The `datetime.strptime(value, "%Y%m%d")` on its documented fixed-width
form: eight digits split 4-2-2 (the format the Drugs@FDA API emits). -/
def strptimeYmd8 (s : String) : Option PyDateTime :=
  let cs := s.toList
  if cs.length = 8 ∧ cs.all Char.isDigit then
    mkDT (digitsToNat (cs.take 4)) (digitsToNat ((cs.drop 4).take 2))
      (digitsToNat (cs.drop 6))
  else none

/-- Split a character list at every occurrence of a separator character,
keeping empty pieces (the semantics of splitting on a one-character
separator that the dash-delimited date formats need). -/
def splitOnChar (sep : Char) : List Char → List (List Char)
  | [] => [[]]
  | c :: rest =>
    if c = sep then [] :: splitOnChar sep rest
    else
      match splitOnChar sep rest with
      | [] => [[c]]
      | t :: ts => (c :: t) :: ts

/-- A run of 1-4 digits, as `strptime`'s `%Y` directive accepts. -/
def okYearGroup (l : List Char) : Bool :=
  1 ≤ l.length ∧ l.length ≤ 4 ∧ l.all Char.isDigit

/-- A run of 1-2 digits, as `strptime`'s `%m` / `%d` directives accept. -/
def okTwoGroup (l : List Char) : Bool :=
  1 ≤ l.length ∧ l.length ≤ 2 ∧ l.all Char.isDigit

/-- The `datetime.strptime(value, "%Y-%m-%d")`: digit groups separated by the
two literal dashes, validated and defaulted by the `datetime` constructor. -/
def strptimeYmdDash (s : String) : Option PyDateTime :=
  match splitOnChar '-' s.toList with
  | [y, m, d] =>
    if okYearGroup y ∧ okTwoGroup m ∧ okTwoGroup d then
      mkDT (digitsToNat y) (digitsToNat m) (digitsToNat d)
    else none
  | _ => none

/-- The `datetime.strptime(value, "%Y-%m")`: the day defaults to 1. -/
def strptimeYmDash (s : String) : Option PyDateTime :=
  match splitOnChar '-' s.toList with
  | [y, m] =>
    if okYearGroup y ∧ okTwoGroup m then
      mkDT (digitsToNat y) (digitsToNat m) 1
    else none
  | _ => none

/-- The `datetime.strptime(value, "%Y")`: month and day default to 1. -/
def strptimeYOnly (s : String) : Option PyDateTime :=
  if okYearGroup s.toList then mkDT (digitsToNat s.toList) 1 1 else none

/-- The `SubmissionType` (`fetch/drugsfda.py` lines 17-21, `drugsfda/schema.py`
lines 348-352). -/
def SubmissionType : Vocab :=
  { name := "SubmissionType", members := ["orig", "suppl"], aliases := [] }

/-- The `SubmissionStatus` (`fetch/drugsfda.py` lines 24-28). -/
def SubmissionStatus : Vocab :=
  { name := "SubmissionStatus", members := ["ap", "ta"], aliases := [] }

/-- The `SubmissionReviewPriority` (`fetch/drugsfda.py` lines 31-51). -/
def SubmissionReviewPriority : Vocab :=
  { name := "SubmissionReviewPriority"
    members := ["standard", "priority", "unknown", "n_a", "require_901", "order_901"]
    aliases := [("n/a", "n_a"), ("901_required", "require_901"), ("901_order", "order_901")] }

/-- The `SubmissionClassCode` (`fetch/drugsfda.py` lines 54-80). -/
def SubmissionClassCode : Vocab :=
  { name := "SubmissionClassCode"
    members :=
      ["bioequiv", "efficacy", "labeling", "manuf_cmc", "medgas", "n_a", "rems", "s",
       "type_1", "type_10", "type_1_4", "type_2", "type_2_3", "type_2_4", "type_3",
       "type_3_4", "type_4", "type_4_5", "type_5", "type_6", "type_7", "type_8",
       "type_9", "unknown"]
    aliases := [] }

/-- The `ApplicationDocType` (`fetch/drugsfda.py` lines 83-127; the
`MEDICATION_GUIDE = ("medication_guide",)` tuple is passed to the `str`
mixin constructor, so that member's value is the plain string). -/
def ApplicationDocType : Vocab :=
  { name := "ApplicationDocType"
    members :=
      ["at", "exclusivity_letter", "fda_press_release", "federal_register_notice",
       "healthcare_professional_sheet", "label", "letter", "medication_guide", "other",
       "other_important_information_from_fda", "patient_information_sheet",
       "patient_package_insert", "pediatric_addendum", "pediatric_amendment_1",
       "pediatric_amendment_2", "pediatric_amendment_3", "pediatric_amendment_4",
       "pediatric_amendment_5", "pediatric_amendment_6", "pediatric_amendment_7",
       "pediatric_cdtl_review", "pediatric_clinical_pharmacology_addendum",
       "pediatric_clinical_pharmacology_review", "pediatric_dd_summary_review",
       "pediatric_medical_review", "pediatric_memo", "pediatric_other",
       "pediatric_reissue", "pediatric_reissue_amendment_1",
       "pediatric_reissue_amendment_2", "pediatric_reissue_amendment_3",
       "pediatric_reissue_amendment_4", "pediatric_reissue_amendment_5",
       "pediatric_reissue_amendment_6", "pediatric_statistical_review",
       "pediatric_written_request", "rems", "review", "summary_review",
       "withdrawal_notice"]
    aliases := [] }

/-- The `OpenFdaProductType` (`fetch/drugsfda.py` lines 152-162). -/
def OpenFdaProductType : Vocab :=
  { name := "OpenFdaProductType"
    members := ["human_prescription_drug", "human_otc_drug"]
    aliases := [("human prescription drug", "human_prescription_drug")] }

/-- The `ProductRoute` (`fetch/drugsfda.py` lines 165-242). -/
def ProductRoute : Vocab :=
  { name := "ProductRoute"
    members :=
      ["auricular_otic", "biliary", "buccal", "dental", "epidural",
       "for_rx_compounding", "implantation", "im_iv", "infiltration", "inhalation",
       "injection", "intra_arterial", "intracardiac", "intracaudal", "intracavernous",
       "intralesional", "intramuscular", "intraocular", "intraperitoneal",
       "intrapleural", "intrasynovial", "intrathecal", "intratracheal",
       "intrauterine", "intravascular", "intravenous", "intravesical",
       "intravesicular", "intravitreal", "intra_articular", "iontophoresis",
       "irrigation", "iv_infusion", "nasal", "n_a", "ophthalmic", "oral",
       "orally_disintegrating", "oral_20", "oral_21", "oral_28", "otic",
       "parenteral", "percutaneous", "perfusion", "periarticular", "perineural",
       "periodontal", "powder_for_solution", "rectal", "respiratory_inhalation",
       "soft_tissue", "spinal", "subcutaneous", "sublingual", "topical",
       "transdermal", "transmucosal", "ureteral", "urethral", "vaginal"]
    aliases := [("n/a", "n_a"), ("powder,for_solution", "powder_for_solution")] }

/-- The `ProductTherapeuticEquivalencyCode` (`fetch/drugsfda.py` lines 284-304). -/
def ProductTherapeuticEquivalencyCode : Vocab :=
  { name := "ProductTherapeuticEquivalencyCode"
    members :=
      ["aa", "ab", "ab1", "ab2", "ab3", "ab4", "an", "ao", "ap", "ap1", "ap2",
       "at", "at1", "bc", "bs", "bt", "bx", "tbd"]
    aliases := [] }

/-- The `ProductMarketingStatus` (`fetch/drugsfda.py` lines 321-341). -/
def ProductMarketingStatus : Vocab :=
  { name := "ProductMarketingStatus"
    members :=
      ["prescription", "over_the_counter", "discontinued", "none_tentative_approval",
       "none"]
    aliases := [("over-the-counter", "over_the_counter")] }

/-- The `ProductDosageForm` (`fetch/drugsfda.py` lines 344-438). -/
def ProductDosageForm : Vocab :=
  { name := "ProductDosageForm"
    members :=
      ["aerosol", "aerosol_foam", "aerosol_metered", "capsule",
       "capsule_delayed_release", "capsule_delayed_rel_pellets",
       "capsule_delayed_rel_pellets_tablet", "capsule_extended_release",
       "capsule_pellet", "capsule_pellette", "concentrate", "cream",
       "cream_augmented", "cream_suppository", "cream_tablet", "disc", "dressing",
       "elixir", "emulsion", "enema", "fiber_extended_release", "film",
       "film_extended_release", "for_solution", "for_suspension",
       "for_suspension_extended_release", "for_suspension_tablet", "gas", "gel",
       "gel_augmented", "gel_metered", "granule", "granule_effervescent",
       "gum_chewing", "implant", "injectable", "injectable_lipid_complex",
       "injectable_liposomal", "injection", "insert", "insert_extended_release",
       "intrauterine_device", "jelly", "liquid", "lotion", "lotion_augmented",
       "lotion_shampoo", "n_a", "oil", "oil_drops", "ointment", "paste", "pastille",
       "patch", "powder", "powder_metered", "ring", "shampoo", "soap", "solution",
       "solution_drops", "solution_extended_release", "solution_metered", "sponge",
       "spray", "spray_metered", "suppository", "suspension", "suspension_drops",
       "suspension_extended_release", "swab", "syrup", "system",
       "system_extended_release", "tablet", "tablet_chewable",
       "tablet_coated_particles", "tablet_delayed_release", "tablet_effervescent",
       "tablet_extended_release", "tablet_for_suspension",
       "tablet_orally_disintegrating",
       "tablet_orally_disintegrating_extended_release", "tampon", "troche_lozenge",
       "vial"]
    aliases := [] }

/-- The `TermType` (`fetch/rxclass.py` lines 15-39): looked up by member NAME
via `TermType[...]`, so the name-to-value table is also recorded. -/
def TermType : Vocab :=
  { name := "TermType"
    members :=
      ["ingredient", "precise_ingredient", "multiple_ingredients",
       "semantic_clinical_drug_component", "semantic_clinical_drug_form",
       "semantic_clinical_drug_form_precise", "semantic_clinical_drug_group",
       "semantic_clinical_drug_form_group_precise", "semantic_clinical_drug",
       "generic_pack", "brand_name", "semantic_branded_drug_component",
       "semantic_branded_drug_form", "semantic_branded_drug_form_precise",
       "semantic_branded_drug_group", "semantic_branded_drug", "brand_name_pack",
       "dose_form", "dose_form_group"]
    aliases := [] }

/-- The member-name-to-value table of `TermType`, for `TermType[tty]`. -/
def termTypeByName : List (String × String) :=
  [("IN", "ingredient"), ("PIN", "precise_ingredient"),
   ("MIN", "multiple_ingredients"), ("SCDC", "semantic_clinical_drug_component"),
   ("SCDF", "semantic_clinical_drug_form"),
   ("SCDFP", "semantic_clinical_drug_form_precise"),
   ("SCDG", "semantic_clinical_drug_group"),
   ("SCDGP", "semantic_clinical_drug_form_group_precise"),
   ("SCD", "semantic_clinical_drug"), ("GPCK", "generic_pack"),
   ("BN", "brand_name"), ("SBDC", "semantic_branded_drug_component"),
   ("SBDF", "semantic_branded_drug_form"),
   ("SBDFP", "semantic_branded_drug_form_precise"),
   ("SBDG", "semantic_branded_drug_group"), ("SBD", "semantic_branded_drug"),
   ("BPCK", "brand_name_pack"), ("DF", "dose_form"), ("DFG", "dose_form_group")]

/-- The `ClassType` (`fetch/rxclass.py` lines 50-68, `rxclass/schema.py` lines
44-62); note the member `ATC1_4 = "atc1-4"`, whose value contains a
hyphen, and that the class declares no `_missing_` hook. -/
def ClassType : Vocab :=
  { name := "ClassType"
    members :=
      ["atc1-4", "chem", "disease", "dispos", "epc", "moa", "pe", "pk",
       "schedule", "struct", "tc", "therap", "va"]
    aliases := [] }

/-- The `Relation` (`fetch/rxclass.py` lines 80-104). -/
def Relation : Vocab :=
  { name := "Relation"
    members :=
      ["isa_disposition", "isa_therapeutic", "isa_structure", "has_ingredient",
       "may_treat", "has_epc", "has_pe", "has_moa", "ci_with", "has_va_class",
       "has_va_class_extended"]
    aliases := [("has_vaclass", "has_va_class"), ("has_vaclass_extended", "has_va_class_extended")] }

/-- The `RelationSource` (`fetch/rxclass.py` lines 107-126; the
`FMTSME = ("fmtsme",)` tuple again yields the plain string value). -/
def RelationSource : Vocab :=
  { name := "RelationSource"
    members :=
      ["atc", "atc_prod", "dailymed", "fda_spl", "fmtsme", "med_rt", "rxnorm",
       "snomedct", "va"]
    aliases := [("atcprod", "atc_prod"), ("medrt", "med_rt"), ("fdaspl", "fda_spl")] }

/-- Whether `pat` is an initial segment of `l` (a literal regex match at
the current position). -/
def startsWithLit : List Char → List Char → Bool
  | [], _ => true
  | _ :: _, [] => false
  | p :: ps, c :: cs => p = c && startsWithLit ps cs

/-- Whether the regex negative lookahead `(?!delayed|extended)` FAILS at
this position, i.e. the text ahead begins with one of the two literals. -/
def lookDE (l : List Char) : Bool :=
  startsWithLit "delayed".toList l || startsWithLit "extended".toList l

/-- Prepend a character to the first token of a token list. -/
def consFirst (c : Char) (ts : List (List Char)) : List (List Char) :=
  match ts with
  | [] => [[c]]
  | t :: rest => (c :: t) :: rest

/-- The `re.split(r", (?!delayed|extended)", s)` (`drugsfda/fetch.py` line 104,
`fetch/drugsfda.py` line 506): scan left to right; a comma followed by a
space starts a new token unless the text after the space begins with
`delayed` or `extended` (the two-character pattern cannot overlap itself,
so this scan is exactly the regex's non-overlapping match sequence). -/
def splitRouteL : List Char → List (List Char)
  | [] => [[]]
  | [c] => [[c]]
  | c1 :: c2 :: rest =>
    if c1 = ',' ∧ c2 = ' ' ∧ ¬ lookDE rest then [] :: splitRouteL rest
    else consFirst c1 (splitRouteL (c2 :: rest))

/-- The route splitter at the `String` level. -/
def splitRoute (s : String) : List String :=
  (splitRouteL s.toList).map String.mk

namespace DrugsFdaLegacy

/-- The `_make_truthy` (`drugsfda/fetch.py` lines 33-44): `None` passes
through; `"no"`/`"yes"`/`"tbd"` case-insensitively map to `False`/`True`/
`None`; anything else is logged at error level and echoed back raw.
The second component is the emitted log. -/
def _make_truthy (status : Option String) : Val × List String :=
  match status with
  | none => (.null, [])
  | some s =>
    let lower_status := pyLower s
    if lower_status = "no" then (.bool false, [])
    else if lower_status = "yes" then (.bool true, [])
    else if lower_status = "tbd" then (.null, [])
    else (.str s, ["Encountered unknown value for converting to bool: " ++ s])

/-- The `_enumify` (`drugsfda/fetch.py` lines 47-64): `None` passes through;
otherwise transform and look up; a miss is logged at error level and the
original raw string echoed back. -/
def _enumify (value : Option String) (CandidateEnum : Vocab) : Val × List String :=
  match value with
  | none => (.null, [])
  | some v =>
    match enumifyValue CandidateEnum v with
    | some m => (.enum CandidateEnum.name m, [])
    | none =>
      (.str v,
       ["Unable to enumify value '" ++ v ++ "' into enum '" ++ CandidateEnum.name ++ "'"])

/-- Python `int(value)` for a string: optional surrounding whitespace,
optional sign, then at least one digit. -/
def pyInt (s : String) : Option Int :=
  let cs := s.toList.dropWhile (fun c => c = ' ') |>.reverse.dropWhile (fun c => c = ' ') |>.reverse
  match cs with
  | '-' :: ds => if ds ≠ [] ∧ ds.all Char.isDigit then some (-(digitsToNat ds : Int)) else none
  | '+' :: ds => if ds ≠ [] ∧ ds.all Char.isDigit then some ((digitsToNat ds : Int)) else none
  | ds => if ds ≠ [] ∧ ds.all Char.isDigit then some ((digitsToNat ds : Int)) else none

/-- The `_intify` (`drugsfda/fetch.py` lines 67-72): parse failure is logged
and becomes `None`. -/
def _intify (value : String) : Val × List String :=
  match pyInt value with
  | some n => (.int n, [])
  | none => (.null, ["Cannot convert value '" ++ value ++ "' to int"])

/-- The `_make_datetime` (`drugsfda/fetch.py` lines 75-82): strict 8-digit
`YYYYMMDD` parse to a midnight-UTC instant; total parse failure is logged
and becomes `None` (never raises). -/
def _make_datetime (value : String) : Val × List String :=
  match strptimeYmd8 value with
  | some d => (.date d, [])
  | none => (.null, ["Unable to convert value '" ++ value ++ "' to datetime"])

/-- The assembled `ActiveIngredient` record. -/
structure ActiveIngredient where
  name : Val
  strength : Val

/-- The assembled `Product` record. -/
structure Product where
  product_number : Val
  reference_drug : Val
  brand_name : Val
  active_ingredients : List ActiveIngredient
  reference_standard : Val
  dosage_form : Val
  route : Val
  marketing_status : Val
  te_code : Val

/-- The assembled `ApplicationDoc` record. -/
structure ApplicationDoc where
  id : Val
  url : Val
  date : Val
  type : Val

/-- The assembled `Submission` record. -/
structure Submission where
  submission_type : Val
  submission_number : Val
  submission_status : Val
  submission_status_date : Val
  review_priority : Val
  submission_class_code : Val
  submission_class_code_description : Val
  application_docs : Option (List ApplicationDoc)

/-- The assembled `OpenFda` record. -/
structure OpenFda where
  application_number : Val
  brand_name : Val
  generic_name : Val
  manufacturer_name : Val
  product_ndc : Val
  product_type : Val
  route : Val
  substance_name : Val
  rxcui : Val
  spl_id : Val
  spl_set_id : Val
  package_ndc : Val
  nui : Val
  pharm_class_epc : Val
  pharm_class_cs : Val
  pharm_class_moa : Val
  unii : Val

/-- The assembled `Result` record. -/
structure Result where
  submissions : Option (List Submission)
  application_number : Val
  sponsor_name : Val
  openfda : Option OpenFda
  products : List Product

/-- The `_get_product` (`drugsfda/fetch.py` lines 85-136).  Field expressions
are evaluated in source order; a raised exception aborts the record. -/
def _get_product (data : PyDict) (normalize : Bool) : Except PyErr Product :=
  (if normalize then
      (dget data "reference_drug").bind fun v =>
        (asStrOrNone v).map fun s => (_make_truthy s).1
    else dget data "reference_drug").bind fun reference_drug =>
  (if normalize ∧ dmem data "reference_standard" then
      (dget data "reference_standard").bind fun v =>
        (asStrOrNone v).map fun s => (_make_truthy s).1
    else Except.ok (dget0 data "reference_standard")).bind fun reference_standard =>
  (if normalize then
      (dget data "dosage_form").bind fun v =>
        (asStrOrNone v).map fun s => (_enumify s ProductDosageForm).1
    else dget data "dosage_form").bind fun dosage_form =>
  (match dget0 data "route" with
    | .null => Except.ok Val.null
    | raw =>
      if normalize then
        (match raw with
          | .str s => Except.ok ((splitRoute s).map Val.str)
          | .list xs => Except.ok xs
          | _ => Except.error (PyErr.typeError "route is not iterable")).bind fun items =>
        (items.mapM fun r => (asStrOrNone r).map fun s => (_enumify s ProductRoute).1).map
          Val.list
      else dget data "route").bind fun route =>
  (if normalize then
      (dget data "marketing_status").bind fun v =>
        (asStrOrNone v).map fun s => (_enumify s ProductMarketingStatus).1
    else dget data "marketing_status").bind fun marketing_status =>
  (if normalize ∧ dmem data "te_code" then
      (dget data "te_code").bind fun v =>
        (asStrOrNone v).map fun s => (_enumify s ProductTherapeuticEquivalencyCode).1
    else Except.ok (dget0 data "te_code")).bind fun te_code =>
  (dget data "product_number").bind fun product_number =>
  (dget data "brand_name").bind fun brand_name =>
  ((dget data "active_ingredients").bind asList).bind fun ais =>
  (ais.mapM fun ai =>
      (asDict ai).bind fun d =>
      if dmem d "strength" then
        (dget d "name").bind fun n =>
        (dget d "strength").map fun st => ActiveIngredient.mk n st
      else
        (dget d "name").map fun n => ActiveIngredient.mk n Val.null).bind
    fun active_ingredients =>
  Except.ok
    { product_number := product_number
      reference_drug := reference_drug
      brand_name := brand_name
      active_ingredients := active_ingredients
      reference_standard := reference_standard
      dosage_form := dosage_form
      route := route
      marketing_status := marketing_status
      te_code := te_code }

/-- The `_get_application_docs` (`drugsfda/fetch.py` lines 139-150). -/
def _get_application_docs (data : List Val) (normalize : Bool) :
    Except PyErr (List ApplicationDoc) :=
  data.mapM fun docv =>
    (asDict docv).bind fun doc =>
    (dget doc "id").bind fun id =>
    (dget doc "url").bind fun url =>
    (if normalize then
        (dget doc "date").bind fun v =>
          (asStr v).map fun s => (_make_datetime s).1
      else dget doc "date").bind fun date =>
    (if normalize then
        (dget doc "type").bind fun v =>
          (asStrOrNone v).map fun s => (_enumify s ApplicationDocType).1
      else dget doc "type").map fun ty =>
    ApplicationDoc.mk id url date ty

/-- The `_get_submission` (`drugsfda/fetch.py` lines 153-197). -/
def _get_submission (data : PyDict) (normalize : Bool) : Except PyErr Submission :=
  (if normalize then
      (dget data "submission_type").bind fun v =>
        (asStrOrNone v).map fun s => (_enumify s SubmissionType).1
    else dget data "submission_type").bind fun submission_type =>
  (if normalize then
      (dget data "submission_number").bind fun v =>
        (asStr v).map fun s => (_intify s).1
    else dget data "submission_number").bind fun submission_number =>
  (if normalize ∧ dmem data "submission_status" then
      (dget data "submission_status").bind fun v =>
        (asStrOrNone v).map fun s => (_enumify s SubmissionStatus).1
    else Except.ok (dget0 data "submission_status")).bind fun submission_status =>
  (if normalize then
      (dget data "submission_status_date").bind fun v =>
        (asStr v).map fun s => (_make_datetime s).1
    else dget data "submission_status_date").bind fun submission_status_date =>
  (if normalize then
      (asStrOrNone (dget0 data "review_priority")).map fun s =>
        (_enumify s SubmissionReviewPriority).1
    else Except.ok (dget0 data "review_priority")).bind fun review_priority =>
  (if normalize then
      (asStrOrNone (dget0 data "submission_class_code")).map fun s =>
        (_enumify s SubmissionClassCode).1
    else Except.ok (dget0 data "submission_class_code")).bind fun submission_class_code =>
  (if dmem data "application_docs" then
      ((dget data "application_docs").bind asList).bind fun xs =>
        (_get_application_docs xs normalize).map some
    else Except.ok none).bind fun application_docs =>
  Except.ok
    { submission_type := submission_type
      submission_number := submission_number
      submission_status := submission_status
      submission_status_date := submission_status_date
      review_priority := review_priority
      submission_class_code := submission_class_code
      submission_class_code_description := dget0 data "submission_class_code_description"
      application_docs := application_docs }

/-- The `_get_openfda` (`drugsfda/fetch.py` lines 200-233). -/
def _get_openfda (data : PyDict) (normalize : Bool) : Except PyErr OpenFda :=
  (if dmem data "product_type" then
      ((dget data "product_type").bind asList).bind fun xs =>
        (xs.mapM fun pt =>
          if normalize then (asStrOrNone pt).map fun s => (_enumify s OpenFdaProductType).1
          else Except.ok pt).map Val.list
    else Except.ok Val.null).bind fun product_type =>
  (if dmem data "route" then
      ((dget data "route").bind asList).bind fun xs =>
        (xs.mapM fun rt =>
          if normalize then (asStrOrNone rt).map fun s => (_enumify s ProductRoute).1
          else Except.ok rt).map Val.list
    else Except.ok Val.null).bind fun route =>
  Except.ok
    { application_number := dget0 data "application_number"
      brand_name := dget0 data "brand_name"
      generic_name := dget0 data "generic_name"
      manufacturer_name := dget0 data "manufacturer_name"
      product_ndc := dget0 data "product_ndc"
      product_type := product_type
      route := route
      substance_name := dget0 data "substance_name"
      rxcui := dget0 data "rxcui"
      spl_id := dget0 data "spl_id"
      spl_set_id := dget0 data "spl_set_id"
      package_ndc := dget0 data "package_ndc"
      nui := dget0 data "nui"
      pharm_class_epc := dget0 data "pharm_class_epc"
      pharm_class_cs := dget0 data "pharm_class_cs"
      pharm_class_moa := dget0 data "pharm_class_moa"
      unii := dget0 data "unii" }

/-- The `_get_result` (`drugsfda/fetch.py` lines 236-245): `submissions` and
`openfda` are optional, `application_number`, `sponsor_name` and
`products` are mandatory; keyword arguments are evaluated in source
order, so the first failure aborts the record. -/
def _get_result (data : PyDict) (normalize : Bool) : Except PyErr Result :=
  (if dmem data "submissions" then
      ((dget data "submissions").bind asList).bind fun xs =>
        (xs.mapM fun sv => (asDict sv).bind fun sd => _get_submission sd normalize).map some
    else Except.ok none).bind fun submissions =>
  (dget data "application_number").bind fun application_number =>
  (dget data "sponsor_name").bind fun sponsor_name =>
  (if dmem data "openfda" then
      (((dget data "openfda").bind asDict).bind fun od => _get_openfda od normalize).map some
    else Except.ok none).bind fun openfda =>
  ((dget data "products").bind asList).bind fun ps =>
  (ps.mapM fun pv => (asDict pv).bind fun pd => _get_product pd normalize).bind
    fun products =>
  Except.ok
    { submissions := submissions
      application_number := application_number
      sponsor_name := sponsor_name
      openfda := openfda
      products := products }

end DrugsFdaLegacy

namespace DrugsFdaStrict

/-- The `_make_truthy` (`fetch/drugsfda.py` lines 441-452): like the legacy
variant for recognized values, but an unrecognized string RAISES
`ValueError` (and emits no log) instead of echoing the raw value. -/
def _make_truthy (status : Option String) : Except PyErr (Option Bool) :=
  match status with
  | none => .ok none
  | some s =>
    let lower_status := pyLower s
    if lower_status = "no" then .ok (some false)
    else if lower_status = "yes" then .ok (some true)
    else if lower_status = "tbd" then .ok none
    else .error (.valueError ("Encountered unknown value for converting to bool: " ++ s))

/-- The `_enumify` (`fetch/drugsfda.py` lines 459-474): same transform and
lookup as the legacy variant, but a miss is logged at error level and the
`ValueError` RE-RAISED instead of echoing the raw value.  The second
component is the emitted log. -/
def _enumify (value : String) (CandidateEnum : Vocab) :
    Except PyErr String × List String :=
  match enumifyValue CandidateEnum value with
  | some m => (.ok m, [])
  | none =>
    (.error (.valueError ("'" ++ enumTransform value ++ "' is not a valid " ++ CandidateEnum.name)),
     ["Unable to enumify value '" ++ value ++ "' into enum '" ++ CandidateEnum.name ++ "'"])

/-- The `_make_datetime` (`fetch/drugsfda.py` lines 485-490): identical
behavior to the legacy variant (strict 8-digit format, log + `None` on
failure, never raises). -/
def _make_datetime (value : String) : Val × List String :=
  match strptimeYmd8 value with
  | some d => (.date d, [])
  | none => (.null, ["Unable to convert value '" ++ value ++ "' to datetime"])

end DrugsFdaStrict

namespace Pagination

/-- The fields of one decoded Drugs@FDA response page that the pagination
loop reads: `data["results"]`, `data["meta"]["results"]["skip"]` and
`data["meta"]["results"]["total"]`. -/
structure PageResp where
  results : List Val
  metaSkip : Nat
  total : Nat

/-- The loop state of `make_drugsatfda_request` (`drugsfda/fetch.py`
lines 260-277 and `fetch/drugsfda.py` lines 636-653), plus a trace of the
`skip` offsets of the GET requests issued so far. -/
structure LoopState where
  results : List Val
  skip : Nat
  remaining : Bool
  requests : List Nat

/-- The initial loop state: `results = []`, `remaining = True`, `skip = 0`. -/
def initState : LoopState :=
  { results := [], skip := 0, remaining := true, requests := [] }

/-- One iteration of the `while remaining:` loop.  The server is modelled
as a function from the requested `skip` offset to the decoded page.  The
loop body issues the GET, accumulates `results`, sets
`skip = data["meta"]["results"]["skip"] + len(data["results"])` and
recomputes `remaining = (data["meta"]["results"]["total"] > skip) or
(skip >= 25000)`, exactly as written in the source. -/
def loopIter (server : Nat → PageResp) (st : LoopState) : LoopState :=
  if st.remaining then
    let data := server st.skip
    let results := st.results ++ data.results
    let skip := data.metaSkip + data.results.length
    let remaining := decide (data.total > skip) || decide (skip ≥ 25000)
    { results := results, skip := skip, remaining := remaining,
      requests := st.requests ++ [st.skip] }
  else st

/-- Run at most `fuel` iterations of the pagination loop. -/
def runLoop (server : Nat → PageResp) : Nat → LoopState
  | 0 => initState
  | n + 1 => loopIter server (runLoop server n)

end Pagination

namespace ClinicalTrials

/-- The `_get_dt_object` (`fetch/clinical_trials.py` lines 21-40): try
`%Y-%m-%d`, then `%Y-%m`, then `%Y`, in that order; if all three fail,
log and RAISE `ValueError` ("Unable to format ... as YYYY-MM-DD, YYYY-MM,
or YYYY").  The second component is the emitted log. -/
def _get_dt_object (raw_date : String) : Except PyErr PyDateTime × List String :=
  match strptimeYmdDash raw_date with
  | some d => (.ok d, [])
  | none =>
    match strptimeYmDash raw_date with
    | some d => (.ok d, [])
    | none =>
      match strptimeYOnly raw_date with
      | some d => (.ok d, [])
      | none =>
        let msg := "Unable to format " ++ raw_date ++ " as YYYY-MM-DD, YYYY-MM, or YYYY"
        (.error (.valueError msg), [msg])

end ClinicalTrials

namespace RxClass

/-- The assembled `DrugConcept` record. -/
structure DrugConcept where
  concept_id : Val
  name : Val
  term_type : Val

/-- The assembled `DrugClassification` record. -/
structure DrugClassification where
  class_id : Val
  class_name : Val
  class_type : Val
  class_url : Val

/-- The assembled `RxClassEntry` record. -/
structure RxClassEntry where
  concept : DrugConcept
  drug_classification : DrugClassification
  relation : Val
  relation_source : Val

/-- The `_get_concept` (`rxclass/fetch.py` lines 21-26): `concept_id` is the
f-string `rxcui:` prefix plus the raw `rxcui`; `term_type` is the
`TermType[tty]` NAME lookup (a `KeyError` on a miss) when normalizing,
else the raw `tty`. -/
def _get_concept (concept_raw : PyDict) (normalize : Bool) :
    Except PyErr DrugConcept :=
  (dget concept_raw "rxcui").bind fun rxcui =>
  (dget concept_raw "name").bind fun name =>
  (dget concept_raw "tty").bind fun tty =>
  (if normalize then
      (asStr tty).bind fun s =>
        match termTypeByName.lookup s with
        | some v => Except.ok (Val.enum TermType.name v)
        | none => Except.error (PyErr.keyError s)
    else Except.ok tty).map fun term_type =>
  { concept_id := Val.str ("rxcui:" ++ pyStr rxcui)
    name := name
    term_type := term_type }

/-- The `_get_classification` (`rxclass/fetch.py` lines 29-39): `class_type`
is `ClassType(raw.lower())` when normalizing (a `ValueError` on a miss;
`ClassType` has no `_missing_` hook), else the raw string; `class_url`
uses `.get`. -/
def _get_classification (classification_raw : PyDict) (normalize : Bool) :
    Except PyErr DrugClassification :=
  (dget classification_raw "classId").bind fun class_id =>
  (dget classification_raw "className").bind fun class_name =>
  (dget classification_raw "classType").bind fun raw_ct =>
  (if normalize then
      (asStr raw_ct).bind fun s =>
        match enumNew ClassType (pyLower s) with
        | some m => Except.ok (Val.enum ClassType.name m)
        | none =>
          Except.error (PyErr.valueError ("'" ++ pyLower s ++ "' is not a valid ClassType"))
    else Except.ok raw_ct).map fun class_type =>
  { class_id := class_id
    class_name := class_name
    class_type := class_type
    class_url := dget0 classification_raw "classUrl" }

/-- The `_get_relation` (`rxclass/fetch.py` lines 42-47): a FALSY raw value
(`None` from a missing key, but also an empty string) becomes `None`;
otherwise `Relation(raw.lower())` when normalizing, else the raw value. -/
def _get_relation (raw_value : Val) (normalize : Bool) : Except PyErr Val :=
  if pyFalsy raw_value then Except.ok Val.null
  else if normalize then
    (asStr raw_value).bind fun s =>
      match enumNew Relation (pyLower s) with
      | some m => Except.ok (Val.enum Relation.name m)
      | none =>
        Except.error (PyErr.valueError ("'" ++ pyLower s ++ "' is not a valid Relation"))
  else Except.ok raw_value

/-- The `_get_relation_source` (`rxclass/fetch.py` lines 50-51):
`RelationSource(raw.lower())` when normalizing (alias table
`atcprod`/`medrt`/`fdaspl` via `_missing_`), else the raw value. -/
def _get_relation_source (raw_value : Val) (normalize : Bool) : Except PyErr Val :=
  if normalize then
    (asStr raw_value).bind fun s =>
      match enumNew RelationSource (pyLower s) with
      | some m => Except.ok (Val.enum RelationSource.name m)
      | none =>
        Except.error (PyErr.valueError ("'" ++ pyLower s ++ "' is not a valid RelationSource"))
  else Except.ok raw_value

/-- The `_get_rxclass_entry` (`rxclass/fetch.py` lines 54-62): keyword
arguments evaluated in source order; `rela` is read with `.get`,
`relaSource` with a mandatory subscript. -/
def _get_rxclass_entry (drug_info : PyDict) (normalize : Bool) :
    Except PyErr RxClassEntry :=
  (((dget drug_info "minConcept").bind asDict).bind fun cm =>
      _get_concept cm normalize).bind fun concept =>
  (((dget drug_info "rxclassMinConceptItem").bind asDict).bind fun km =>
      _get_classification km normalize).bind fun drug_classification =>
  (_get_relation (dget0 drug_info "rela") normalize).bind fun relation =>
  ((dget drug_info "relaSource").bind fun rsv =>
      _get_relation_source rsv normalize).map fun relation_source =>
  { concept := concept
    drug_classification := drug_classification
    relation := relation
    relation_source := relation_source }

/-- The Python comparison `r.relation_source == RelationSource.SNOMEDCT`:
`RelationSource` is a `str`-mixin enum, so both the member itself and the
plain string `"snomedct"` compare equal to it; any other value (including
`None`) does not. -/
def isSnomedSource (v : Val) : Bool :=
  match v with
  | .enum cls m => cls = RelationSource.name ∧ m = "snomedct"
  | .str s => s = "snomedct"
  | _ => false

/-- The post-HTTP body of `make_rxclass_request` (`rxclass/fetch.py`
lines 84-95): a falsy decoded payload yields `[]`; otherwise every entry
of `raw_data["rxclassDrugInfoList"]["rxclassDrugInfo"]` is assembled, and
unless `include_snomedt` is set, entries whose `relation_source` equals
`RelationSource.SNOMEDCT` are filtered out (`processed_results` is
rebuilt by the filtering comprehension, preserving order). -/
def processResponse (raw_data : Val) (include_snomedt : Bool) (normalize : Bool) :
    Except PyErr (List RxClassEntry) :=
  if pyFalsy raw_data then Except.ok []
  else
    ((asDict raw_data).bind fun outer =>
      ((dget outer "rxclassDrugInfoList").bind asDict).bind fun infoList =>
      ((dget infoList "rxclassDrugInfo").bind asList).bind fun entries =>
      entries.mapM fun e => (asDict e).bind fun ed =>
        _get_rxclass_entry ed normalize).bind fun processed_results =>
    if !include_snomedt then
      Except.ok (processed_results.filter (fun r => !(isSnomedSource r.relation_source)))
    else
      Except.ok processed_results

end RxClass

/-- Rejoin a token list with the `", "` separator the split removed. -/
def joinCS : List (List Char) → List Char
  | [] => []
  | [t] => t
  | t :: ts => t ++ ',' :: ' ' :: joinCS ts

/-- Whether a character list still contains an occurrence of `", "` that the
route-split regex would have cut (comma, space, lookahead not matching). -/
def hasMissedCut : List Char → Bool
  | [] => false
  | [_] => false
  | c1 :: c2 :: rest =>
    if c1 = ',' ∧ c2 = ' ' ∧ ¬ lookDE rest then true
    else hasMissedCut (c2 :: rest)

theorem splitRouteL_ne_nil (l : List Char) : splitRouteL l ≠ [] := by
  induction l using splitRouteL.induct with
  | case1 => simp [splitRouteL]
  | case2 c => simp [splitRouteL]
  | case3 c1 c2 rest h ih => simp [splitRouteL, h]
  | case4 c1 c2 rest h ih =>
    simp only [splitRouteL, h, if_false]
    cases hS : splitRouteL (c2 :: rest) with
    | nil => exact absurd hS ih
    | cons t ts => simp [consFirst]

theorem joinCS_cons_of_ne_nil (t : List Char) (ts : List (List Char)) (h : ts ≠ []) :
    joinCS (t :: ts) = t ++ ',' :: ' ' :: joinCS ts := by
  cases ts with
  | nil => exact absurd rfl h
  | cons t' ts' => rfl

theorem joinCS_consFirst (c : Char) (ts : List (List Char)) :
    joinCS (consFirst c ts) = c :: joinCS ts := by
  cases ts with
  | nil => rfl
  | cons t ts' =>
    cases ts' with
    | nil => rfl
    | cons t2 ts2 => rfl

theorem joinCS_splitRouteL (l : List Char) : joinCS (splitRouteL l) = l := by
  induction l using splitRouteL.induct with
  | case1 => rfl
  | case2 c => rfl
  | case3 c1 c2 rest h ih =>
    obtain ⟨h1, h2, h3⟩ := h
    subst h1; subst h2
    rw [splitRouteL, if_pos ⟨rfl, rfl, h3⟩]
    rw [joinCS_cons_of_ne_nil _ _ (splitRouteL_ne_nil rest), ih]
    rfl
  | case4 c1 c2 rest h ih =>
    rw [splitRouteL, if_neg h]
    rw [joinCS_consFirst, ih]

theorem headI_consFirst (c : Char) (ts : List (List Char)) :
    (consFirst c ts).headI = c :: ts.headI := by
  cases ts with
  | nil => rfl
  | cons t ts' => rfl

theorem startsWithLit_headI (pre : List Char) :
    ∀ l : List Char, (∀ c ∈ pre, c ≠ ',') → startsWithLit pre l →
      startsWithLit pre ((splitRouteL l).headI) := by
  induction pre with
  | nil => intro l _ _; rfl
  | cons p pre' ih =>
    intro l hfree hpre
    cases l with
    | nil => exact absurd hpre (by simp [startsWithLit])
    | cons a l' =>
      have hpa : p = a := by
        by_contra hne
        simp [startsWithLit, hne] at hpre
      have hpre' : startsWithLit pre' l' := by
        simpa [startsWithLit, hpa] using hpre
      have hanc : a ≠ ',' := hpa ▸ hfree p (by simp)
      cases l' with
      | nil =>
        have : pre' = [] := by
          cases pre' with
          | nil => rfl
          | cons q qs => exact absurd hpre' (by simp [startsWithLit])
        subst this
        simp [splitRouteL, startsWithLit, hpa, List.headI]
      | cons c2 rest =>
        have hnc : ¬ (a = ',' ∧ c2 = ' ' ∧ ¬ lookDE rest) := by
          intro hcon
          exact hanc hcon.1
        rw [splitRouteL, if_neg hnc, headI_consFirst]
        have := ih (c2 :: rest) (fun c hc => hfree c (by simp [hc])) hpre'
        simp [startsWithLit, hpa, this]

theorem lookDE_headI (l : List Char) (h : lookDE l) : lookDE ((splitRouteL l).headI) := by
  rw [lookDE] at h ⊢
  rcases Bool.or_eq_true_iff.mp h with hd | he
  · exact Bool.or_eq_true_iff.mpr
      (Or.inl (startsWithLit_headI _ l (by decide) hd))
  · exact Bool.or_eq_true_iff.mpr
      (Or.inr (startsWithLit_headI _ l (by decide) he))

theorem splitRouteL_noMissedCut (l : List Char) :
    (∀ t ∈ splitRouteL l, hasMissedCut t = false) ∧
      ∀ c1 : Char, ¬ (c1 = ',' ∧ l.head? = some ' ' ∧ ¬ lookDE l.tail) →
        hasMissedCut (c1 :: (splitRouteL l).headI) = false := by
  induction l using splitRouteL.induct with
  | case1 =>
    refine ⟨?_, ?_⟩
    · intro t ht; simp [splitRouteL] at ht; simp [ht, hasMissedCut]
    · intro c1 _; simp [splitRouteL, List.headI, hasMissedCut]
  | case2 c =>
    refine ⟨?_, ?_⟩
    · intro t ht; simp [splitRouteL] at ht; simp [ht, hasMissedCut]
    · intro c1 hc1
      have hne : ¬ (c1 = ',' ∧ c = ' ' ∧ ¬ lookDE []) := by
        intro hcon
        exact hc1 ⟨hcon.1, by simp [hcon.2.1], hcon.2.2⟩
      simp only [splitRouteL, List.headI, hasMissedCut]
      rw [if_neg hne]
  | case3 c1 c2 rest h ih =>
    obtain ⟨h1, h2, h3⟩ := h
    subst h1; subst h2
    rw [splitRouteL, if_pos ⟨rfl, rfl, h3⟩]
    refine ⟨?_, ?_⟩
    · intro t ht
      rcases List.mem_cons.mp ht with rfl | ht2
      · rfl
      · exact ih.1 t ht2
    · intro c0 _
      simp [List.headI, hasMissedCut]
  | case4 c1 c2 rest h ih =>
    rw [splitRouteL, if_neg h]
    have hmain : hasMissedCut (c1 :: (splitRouteL (c2 :: rest)).headI) = false := by
      refine ih.2 c1 ?_
      simpa using h
    refine ⟨?_, ?_⟩
    · intro t ht
      cases hS : splitRouteL (c2 :: rest) with
      | nil => exact absurd hS (splitRouteL_ne_nil _)
      | cons t0 ts =>
        rw [hS] at ht
        rcases List.mem_cons.mp (by simpa [consFirst] using ht) with rfl | ht2
        · have ht0 : (splitRouteL (c2 :: rest)).headI = t0 := by rw [hS]; rfl
          rw [← ht0]
          exact hmain
        · exact ih.1 t (by rw [hS]; exact List.mem_cons_of_mem _ ht2)
    · intro c0 hc0
      rw [headI_consFirst]
      have hcond : ¬ (c0 = ',' ∧ c1 = ' ' ∧ ¬ lookDE ((splitRouteL (c2 :: rest)).headI)) := by
        rintro ⟨e0, e1, e3⟩
        have hlook : lookDE (c2 :: rest) := by
          by_contra hnl
          exact hc0 ⟨e0, by simp [e1], by simpa using hnl⟩
        exact e3 (lookDE_headI _ hlook)
      show hasMissedCut (c0 :: c1 :: (splitRouteL (c2 :: rest)).headI) = false
      simp only [hasMissedCut]
      rw [if_neg hcond]
      exact hmain

theorem enumify_of_value_roundtrip (voc : Vocab) (v : String)
    (h : enumifyValue voc v = some v) :
    (DrugsFdaLegacy._enumify (some v) voc).1 = Val.enum voc.name v := by
  simp [DrugsFdaLegacy._enumify, h]

theorem all_members_roundtrip (voc : Vocab)
    (hall : voc.members.all (fun v => enumifyValue voc v == some v)) :
    ∀ v ∈ voc.members, (DrugsFdaLegacy._enumify (some v) voc).1 = Val.enum voc.name v := by
  intro v hv
  exact enumify_of_value_roundtrip voc v (by simpa using List.all_eq_true.mp hall v hv)

/-- C3 amended: canonical spellings round-trip through the `_enumify`
transform-and-look-up for every vocabulary EXCEPT `ClassType`: for all 13
other embedded enumerations and every member value `v`, `_enumify` maps
`v` back to the member itself.  `ClassType` members do round-trip through
the normalizer actually applied to them in the code (plain lowercasing in
`_get_classification`), but its member `ATC1_4 = "atc1-4"` fails the
claim's hyphen-collapsing transform, per the counterexample. -/
theorem claim3_amended :
    (∀ v ∈ SubmissionType.members,
      (DrugsFdaLegacy._enumify (some v) SubmissionType).1 = Val.enum SubmissionType.name v) ∧
    (∀ v ∈ SubmissionStatus.members,
      (DrugsFdaLegacy._enumify (some v) SubmissionStatus).1 = Val.enum SubmissionStatus.name v) ∧
    (∀ v ∈ SubmissionReviewPriority.members,
      (DrugsFdaLegacy._enumify (some v) SubmissionReviewPriority).1 = Val.enum SubmissionReviewPriority.name v) ∧
    (∀ v ∈ SubmissionClassCode.members,
      (DrugsFdaLegacy._enumify (some v) SubmissionClassCode).1 = Val.enum SubmissionClassCode.name v) ∧
    (∀ v ∈ ApplicationDocType.members,
      (DrugsFdaLegacy._enumify (some v) ApplicationDocType).1 = Val.enum ApplicationDocType.name v) ∧
    (∀ v ∈ OpenFdaProductType.members,
      (DrugsFdaLegacy._enumify (some v) OpenFdaProductType).1 = Val.enum OpenFdaProductType.name v) ∧
    (∀ v ∈ ProductRoute.members,
      (DrugsFdaLegacy._enumify (some v) ProductRoute).1 = Val.enum ProductRoute.name v) ∧
    (∀ v ∈ ProductTherapeuticEquivalencyCode.members,
      (DrugsFdaLegacy._enumify (some v) ProductTherapeuticEquivalencyCode).1 =
        Val.enum ProductTherapeuticEquivalencyCode.name v) ∧
    (∀ v ∈ ProductMarketingStatus.members,
      (DrugsFdaLegacy._enumify (some v) ProductMarketingStatus).1 = Val.enum ProductMarketingStatus.name v) ∧
    (∀ v ∈ ProductDosageForm.members,
      (DrugsFdaLegacy._enumify (some v) ProductDosageForm).1 = Val.enum ProductDosageForm.name v) ∧
    (∀ v ∈ TermType.members,
      (DrugsFdaLegacy._enumify (some v) TermType).1 = Val.enum TermType.name v) ∧
    (∀ v ∈ Relation.members,
      (DrugsFdaLegacy._enumify (some v) Relation).1 = Val.enum Relation.name v) ∧
    (∀ v ∈ RelationSource.members,
      (DrugsFdaLegacy._enumify (some v) RelationSource).1 = Val.enum RelationSource.name v) ∧
    (∀ v ∈ ClassType.members, enumNew ClassType (pyLower v) = some v) :=
  ⟨all_members_roundtrip _ (by decide), all_members_roundtrip _ (by decide),
   all_members_roundtrip _ (by decide), all_members_roundtrip _ (by decide),
   all_members_roundtrip _ (by decide), all_members_roundtrip _ (by decide),
   all_members_roundtrip _ (by decide), all_members_roundtrip _ (by decide),
   all_members_roundtrip _ (by decide), all_members_roundtrip _ (by decide),
   all_members_roundtrip _ (by decide), all_members_roundtrip _ (by decide),
   all_members_roundtrip _ (by decide),
   fun v hv => by
    simpa using List.all_eq_true.mp
      (show ClassType.members.all (fun v => enumNew ClassType (pyLower v) == some v) = true by decide)
      v hv⟩

/-- C3 counterexample: `ClassType.ATC1_4` has value `"atc1-4"`; the stated
transform collapses the hyphen to an underscore giving `"atc1_4"`, which
is not a `ClassType` member (and `ClassType` has no alias hook), so
`_enumify` echoes the raw string back instead of returning the member. -/
theorem claim3_counterexample :
    (DrugsFdaLegacy._enumify (some "atc1-4") ClassType).1 = Val.str "atc1-4" ∧
      ∀ m : String, (DrugsFdaLegacy._enumify (some "atc1-4") ClassType).1 ≠ Val.enum ClassType.name m := by
  refine ⟨rfl, ?_⟩
  intro m h
  have h2 : Val.str "atc1-4" = Val.enum ClassType.name m := h
  exact Val.noConfusion h2

/-- C3 witness: the amended round-trip theorem applied to
`ProductRoute.ORAL` and to `ClassType.ATC1_4` under plain lowercasing. -/
theorem claim3_witness :
    (DrugsFdaLegacy._enumify (some "oral") ProductRoute).1 = Val.enum ProductRoute.name "oral" ∧
      enumNew ClassType (pyLower "atc1-4") = some "atc1-4" :=
  ⟨claim3_amended.2.2.2.2.2.2.1 "oral" (by decide),
   claim3_amended.2.2.2.2.2.2.2.2.2.2.2.2.2 "atc1-4" (by decide)⟩

/-- C4: the route splitter cuts exactly at occurrences of comma-space not
followed by the literal `delayed` or `extended`: rejoining the tokens
with `", "` reconstructs the input (cuts happen only at `", "`), no token
retains an uncut eligible `", "` occurrence, `"oral, topical"` splits
into two tokens which `_get_product` normalizes to the `ORAL` and
`TOPICAL` members, and `"capsule, delayed release"` stays one token. -/
theorem claim4_route_split :
    (∀ s : String, joinCS (splitRouteL s.toList) = s.toList) ∧
    (∀ (s : String) (t : List Char), t ∈ splitRouteL s.toList → hasMissedCut t = false) ∧
    splitRoute "oral, topical" = ["oral", "topical"] ∧
    splitRoute "capsule, delayed release" = ["capsule, delayed release"] ∧
    (DrugsFdaLegacy._get_product
        [("product_number", Val.str "001"), ("reference_drug", Val.str "Yes"),
         ("brand_name", Val.str "X"), ("active_ingredients", Val.list []),
         ("dosage_form", Val.str "TABLET"), ("route", Val.str "oral, topical"),
         ("marketing_status", Val.str "Prescription")] true).map
      (fun p => p.route) =
      Except.ok (Val.list [Val.enum "ProductRoute" "oral", Val.enum "ProductRoute" "topical"]) :=
  ⟨fun s => joinCS_splitRouteL s.toList,
   fun _ t ht => (splitRouteL_noMissedCut _).1 t ht,
   by decide, by decide, rfl⟩

/-- C4 witness: the split theorem evaluated at concrete strings. -/
theorem claim4_witness :
    "oral".toList ∈ splitRouteL "oral, topical".toList ∧
      hasMissedCut "oral".toList = false ∧
      joinCS (splitRouteL "nasal, oral".toList) = "nasal, oral".toList :=
  ⟨by decide, claim4_route_split.2.1 "oral, topical" "oral".toList (by decide), claim4_route_split.1 "nasal, oral"⟩

/-- C5: both tristate implementations map null to null, any casing of
`"yes"` to true, `"no"` to false, and `"tbd"` to null (the legacy variant
emitting no log in each case, the strict variant raising nothing). -/
theorem claim5_tristate (s : String) :
    (pyLower s = "yes" →
      DrugsFdaLegacy._make_truthy (some s) = (Val.bool true, []) ∧
        DrugsFdaStrict._make_truthy (some s) = .ok (some true)) ∧
    (pyLower s = "no" →
      DrugsFdaLegacy._make_truthy (some s) = (Val.bool false, []) ∧
        DrugsFdaStrict._make_truthy (some s) = .ok (some false)) ∧
    (pyLower s = "tbd" →
      DrugsFdaLegacy._make_truthy (some s) = (Val.null, []) ∧
        DrugsFdaStrict._make_truthy (some s) = .ok none) ∧
    DrugsFdaLegacy._make_truthy none = (Val.null, []) ∧
    DrugsFdaStrict._make_truthy none = .ok none := by
  refine ⟨?_, ?_, ?_, rfl, rfl⟩
  · intro h
    constructor
    · simp [DrugsFdaLegacy._make_truthy, h]
    · simp [DrugsFdaStrict._make_truthy, h]
  · intro h
    constructor
    · simp [DrugsFdaLegacy._make_truthy, h]
    · simp [DrugsFdaStrict._make_truthy, h]
  · intro h
    constructor
    · simp [DrugsFdaLegacy._make_truthy, h]
    · simp [DrugsFdaStrict._make_truthy, h]

/-- C5 witness: the tristate theorem at `"Yes"`, `"NO"` and `"TBD"`. -/
theorem claim5_witness :
    DrugsFdaLegacy._make_truthy (some "Yes") = (Val.bool true, []) ∧
      DrugsFdaStrict._make_truthy (some "NO") = .ok (some false) ∧
      DrugsFdaLegacy._make_truthy (some "TBD") = (Val.null, []) :=
  ⟨((claim5_tristate "Yes").1 (by decide)).1, ((claim5_tristate "NO").2.1 (by decide)).2,
   ((claim5_tristate "TBD").2.2.1 (by decide)).1⟩

/-- C6: the 8-digit normalizer parses `"20230615"` to the UTC midnight
instant 2023-06-15; the lenient normalizer tries `%Y-%m-%d`, `%Y-%m`,
`%Y` in that order, giving 2023-06-01 for `"2023-06"` and 2023-01-01 for
`"2023"`; later formats are only consulted when earlier ones fail. -/
theorem claim6_date_formats :
    DrugsFdaLegacy._make_datetime "20230615" = (Val.date ⟨2023, 6, 15, 0, 0, 0, true⟩, []) ∧
    DrugsFdaStrict._make_datetime "20230615" = (Val.date ⟨2023, 6, 15, 0, 0, 0, true⟩, []) ∧
    ClinicalTrials._get_dt_object "2023-06-15" = (.ok ⟨2023, 6, 15, 0, 0, 0, true⟩, []) ∧
    ClinicalTrials._get_dt_object "2023-06" = (.ok ⟨2023, 6, 1, 0, 0, 0, true⟩, []) ∧
    ClinicalTrials._get_dt_object "2023" = (.ok ⟨2023, 1, 1, 0, 0, 0, true⟩, []) ∧
    (∀ (s : String) (d : PyDateTime),
      strptimeYmdDash s = some d → ClinicalTrials._get_dt_object s = (.ok d, [])) ∧
    (∀ (s : String) (d : PyDateTime),
      strptimeYmdDash s = none → strptimeYmDash s = some d →
        ClinicalTrials._get_dt_object s = (.ok d, [])) ∧
    (∀ (s : String) (d : PyDateTime),
      strptimeYmdDash s = none → strptimeYmDash s = none → strptimeYOnly s = some d →
        ClinicalTrials._get_dt_object s = (.ok d, [])) := by
  refine ⟨rfl, rfl, rfl, rfl, rfl, ?_, ?_, ?_⟩
  · intro s d h; simp [ClinicalTrials._get_dt_object, h]
  · intro s d h1 h2; simp [ClinicalTrials._get_dt_object, h1, h2]
  · intro s d h1 h2 h3; simp [ClinicalTrials._get_dt_object, h1, h2, h3]

/-- C6 witness: the format-order implications at concrete dates. -/
theorem claim6_witness :
    ClinicalTrials._get_dt_object "1999-12-31" = (.ok ⟨1999, 12, 31, 0, 0, 0, true⟩, []) ∧
      ClinicalTrials._get_dt_object "1999-12" = (.ok ⟨1999, 12, 1, 0, 0, 0, true⟩, []) ∧
      ClinicalTrials._get_dt_object "1999" = (.ok ⟨1999, 1, 1, 0, 0, 0, true⟩, []) :=
  ⟨claim6_date_formats.2.2.2.2.2.1 "1999-12-31" _ (by decide),
   claim6_date_formats.2.2.2.2.2.2.1 "1999-12" _ (by decide) (by decide),
   claim6_date_formats.2.2.2.2.2.2.2 "1999" _ (by decide) (by decide) (by decide)⟩

/-- C7: for every string the 8-digit format rejects, both `_make_datetime`
variants log and return null (their embedding is a total function, so no
exception is possible), while for every string all three lenient formats
reject, `_get_dt_object` raises the unparseable-date `ValueError`. -/
theorem claim7_date_error_asymmetry (s : String) :
    (strptimeYmd8 s = none →
      DrugsFdaLegacy._make_datetime s =
          (Val.null, ["Unable to convert value '" ++ s ++ "' to datetime"]) ∧
        DrugsFdaStrict._make_datetime s =
          (Val.null, ["Unable to convert value '" ++ s ++ "' to datetime"])) ∧
    (strptimeYmdDash s = none → strptimeYmDash s = none → strptimeYOnly s = none →
      ClinicalTrials._get_dt_object s =
        (.error (.valueError ("Unable to format " ++ s ++ " as YYYY-MM-DD, YYYY-MM, or YYYY")),
         ["Unable to format " ++ s ++ " as YYYY-MM-DD, YYYY-MM, or YYYY"])) := by
  constructor
  · intro h
    constructor
    · simp [DrugsFdaLegacy._make_datetime, h]
    · simp [DrugsFdaStrict._make_datetime, h]
  · intro h1 h2 h3
    simp [ClinicalTrials._get_dt_object, h1, h2, h3]

/-- C7 witness: the asymmetry theorem at `"not-a-date"`. -/
theorem claim7_witness :
    DrugsFdaLegacy._make_datetime "not-a-date" =
        (Val.null, ["Unable to convert value 'not-a-date' to datetime"]) ∧
      ClinicalTrials._get_dt_object "not-a-date" =
        (.error (.valueError "Unable to format not-a-date as YYYY-MM-DD, YYYY-MM, or YYYY"),
         ["Unable to format not-a-date as YYYY-MM-DD, YYYY-MM, or YYYY"]) :=
  ⟨((claim7_date_error_asymmetry "not-a-date").1 (by decide)).1,
   (claim7_date_error_asymmetry "not-a-date").2 (by decide) (by decide) (by decide)⟩

theorem except_bind_ok {α β γ : Type} {e : Except γ α} {f : α → Except γ β} {b : β}
    (h : (e >>= f) = .ok b) : ∃ a, e = .ok a ∧ f a = .ok b := by
  cases e with
  | error err => simp [Bind.bind, Except.bind] at h
  | ok a => exact ⟨a, rfl, by simpa [Bind.bind, Except.bind] using h⟩

theorem dget_ok_dget0 {data : PyDict} {k : String} {v : Val} (h : dget data k = .ok v) :
    dget0 data k = v := by
  unfold dget at h
  unfold dget0
  cases hl : data.lookup k with
  | none => rw [hl] at h; exact absurd h (by simp)
  | some w => rw [hl] at h; cases h; rfl

set_option maxRecDepth 100000 in
/-- C1 (code bug evidence): the pagination loop of `make_drugsatfda_request`
computes `remaining = (total > skip) or (skip >= 25000)`, so at the state
where the server reports `total = 25000` and the accumulated skip offset
reaches 25000 (no more data AND the safety cap reached), `remaining` is
still true and the loop issues a FURTHER page request at offset 25000 —
the claim says no further request is issued once `total <= skip` or the
25,000-record cap is reached. -/
theorem claim1_cap_continues_fetching :
    (Pagination.runLoop (fun _ => ⟨List.replicate 500 Val.null, 24500, 25000⟩) 1).skip = 25000 ∧
    (Pagination.runLoop (fun _ => ⟨List.replicate 500 Val.null, 24500, 25000⟩) 1).remaining = true ∧
    (Pagination.runLoop (fun _ => ⟨List.replicate 500 Val.null, 24500, 25000⟩) 2).requests
      = [0, 25000] := by
  refine ⟨by decide, by decide, by decide⟩

/-- C2 counterexample: in `fetch/drugsfda.py` (the strict variant, cited by
the claim), an unrecognized tristate value makes `_make_truthy` RAISE
`ValueError` (with no log), and an unrecognized enum value makes
`_enumify` log and re-raise `ValueError` — neither echoes the original
raw string back, so assembly aborts rather than continuing. -/
theorem claim2_counterexample :
    DrugsFdaStrict._make_truthy (some "maybe") =
        .error (.valueError "Encountered unknown value for converting to bool: maybe") ∧
      (DrugsFdaStrict._enumify "bogus value" ProductRoute).1 =
        .error (.valueError "'bogus_value' is not a valid ProductRoute") ∧
      (DrugsFdaStrict._enumify "bogus value" ProductRoute).2 =
        ["Unable to enumify value 'bogus value' into enum 'ProductRoute'"] :=
  ⟨rfl, rfl, rfl⟩

theorem except_map_ok {α β γ : Type} {e : Except γ α} {g : α → β} {b : β}
    (h : e.map g = .ok b) : ∃ a, e = .ok a ∧ g a = b := by
  cases e with
  | error err => simp [Except.map] at h
  | ok a => exact ⟨a, rfl, by simpa [Except.map] using h⟩

/-- C2 amended: in the legacy implementation (`drugsfda/fetch.py`) an
unrecognized tristate value and an unrecognized enum value are each
logged at error level and the original raw string is echoed back
unchanged, and assembly of the containing record continues (a `Product`
whose `dosage_form` misses the vocabulary is still assembled, with the
raw string in place); the strict implementation (`fetch/drugsfda.py`)
instead raises, per the counterexample. -/
theorem claim2_amended (s : String) (voc : Vocab) (data : PyDict) (p : DrugsFdaLegacy.Product) :
    (pyLower s ≠ "yes" → pyLower s ≠ "no" → pyLower s ≠ "tbd" →
      DrugsFdaLegacy._make_truthy (some s) =
        (Val.str s, ["Encountered unknown value for converting to bool: " ++ s])) ∧
    (enumifyValue voc s = none →
      DrugsFdaLegacy._enumify (some s) voc =
        (Val.str s,
         ["Unable to enumify value '" ++ s ++ "' into enum '" ++ voc.name ++ "'"])) ∧
    (data.lookup "dosage_form" = some (Val.str s) →
      enumifyValue ProductDosageForm s = none →
      DrugsFdaLegacy._get_product data true = .ok p →
      p.dosage_form = Val.str s) := by
  refine ⟨?_, ?_, ?_⟩
  · intro h1 h2 h3
    simp [DrugsFdaLegacy._make_truthy, h1, h2, h3]
  · intro h
    simp [DrugsFdaLegacy._enumify, h]
  · intro hlk hmiss hok
    unfold DrugsFdaLegacy._get_product at hok
    obtain ⟨rd, hrd, hok⟩ := except_bind_ok hok
    obtain ⟨rs, hrs, hok⟩ := except_bind_ok hok
    obtain ⟨df, hdf, hok⟩ := except_bind_ok hok
    obtain ⟨rt, hrt, hok⟩ := except_bind_ok hok
    obtain ⟨ms, hms, hok⟩ := except_bind_ok hok
    obtain ⟨tc, htc, hok⟩ := except_bind_ok hok
    obtain ⟨pn, hpn, hok⟩ := except_bind_ok hok
    obtain ⟨bn, hbn, hok⟩ := except_bind_ok hok
    obtain ⟨ail, hail, hok⟩ := except_bind_ok hok
    obtain ⟨ais, hais, hok⟩ := except_bind_ok hok
    cases hok
    show df = Val.str s
    rw [if_pos rfl] at hdf
    obtain ⟨v, hv, hdf⟩ := except_bind_ok hdf
    unfold dget at hv
    rw [hlk] at hv
    cases hv
    obtain ⟨so, hso, hdf⟩ := except_map_ok hdf
    cases hso
    rw [← hdf]
    simp [DrugsFdaLegacy._enumify, hmiss]

/-- C2 witness: the amended theorem evaluated at concrete inputs. -/
theorem claim2_witness :
    DrugsFdaLegacy._make_truthy (some "maybe") =
        (Val.str "maybe", ["Encountered unknown value for converting to bool: maybe"]) ∧
      DrugsFdaLegacy._enumify (some "perplexing") ProductRoute =
        (Val.str "perplexing",
         ["Unable to enumify value 'perplexing' into enum 'ProductRoute'"]) ∧
      (DrugsFdaLegacy.Product.mk (Val.str "001") (Val.bool true) (Val.str "X") []
          Val.null (Val.str "bogus value") Val.null
          (Val.enum "ProductMarketingStatus" "prescription") Val.null).dosage_form =
        Val.str "bogus value" :=
  ⟨(claim2_amended "maybe" ProductRoute []
      (DrugsFdaLegacy.Product.mk Val.null Val.null Val.null [] Val.null Val.null
        Val.null Val.null Val.null)).1 (by decide) (by decide) (by decide),
   (claim2_amended "perplexing" ProductRoute []
      (DrugsFdaLegacy.Product.mk Val.null Val.null Val.null [] Val.null Val.null
        Val.null Val.null Val.null)).2.1 (by decide),
   (claim2_amended "bogus value" ProductRoute
      [("product_number", Val.str "001"), ("reference_drug", Val.str "Yes"),
       ("brand_name", Val.str "X"), ("active_ingredients", Val.list []),
       ("dosage_form", Val.str "bogus value"),
       ("marketing_status", Val.str "Prescription")]
      (DrugsFdaLegacy.Product.mk (Val.str "001") (Val.bool true) (Val.str "X") []
        Val.null (Val.str "bogus value") Val.null
        (Val.enum "ProductMarketingStatus" "prescription") Val.null)).2.2
     (by rfl) (by decide) (by rfl)⟩

/-- C8: a raw record missing the mandatory `application_number` never
assembles (and with the other mandatory fields present the error is
exactly `KeyError "application_number"`), while records missing optional
keys (`submissions`, `openfda`, `submission_status`, `review_priority`,
`submission_class_code`, its description, `application_docs`) assemble
with those fields null. -/
theorem claim8_required_optional :
    (∀ (data : PyDict) (normalize : Bool), data.lookup "application_number" = none →
      ∀ r : DrugsFdaLegacy.Result, DrugsFdaLegacy._get_result data normalize ≠ .ok r) ∧
    (∀ (data : PyDict) (normalize : Bool) (r : DrugsFdaLegacy.Result),
      DrugsFdaLegacy._get_result data normalize = .ok r →
      (data.lookup "submissions" = none → r.submissions = none) ∧
      (data.lookup "openfda" = none → r.openfda = none)) ∧
    (∀ (data : PyDict) (normalize : Bool) (sub : DrugsFdaLegacy.Submission),
      DrugsFdaLegacy._get_submission data normalize = .ok sub →
      (data.lookup "submission_status" = none → sub.submission_status = Val.null) ∧
      (data.lookup "review_priority" = none → sub.review_priority = Val.null) ∧
      (data.lookup "submission_class_code" = none → sub.submission_class_code = Val.null) ∧
      (data.lookup "submission_class_code_description" = none →
        sub.submission_class_code_description = Val.null) ∧
      (data.lookup "application_docs" = none → sub.application_docs = none)) ∧
    DrugsFdaLegacy._get_result
        [("sponsor_name", Val.str "S"), ("products", Val.list [])] false =
      .error (.keyError "application_number") := by
  refine ⟨?_, ?_, ?_, by rfl⟩
  · intro data nm hlk r hok
    unfold DrugsFdaLegacy._get_result at hok
    obtain ⟨subs, hsubs, hok⟩ := except_bind_ok hok
    obtain ⟨an, han, hok⟩ := except_bind_ok hok
    unfold dget at han
    rw [hlk] at han
    exact absurd han (by simp)
  · intro data nm r hok
    unfold DrugsFdaLegacy._get_result at hok
    obtain ⟨subs, hsubs, hok⟩ := except_bind_ok hok
    obtain ⟨an, han, hok⟩ := except_bind_ok hok
    obtain ⟨sn, hsn, hok⟩ := except_bind_ok hok
    obtain ⟨ofda, hofda, hok⟩ := except_bind_ok hok
    obtain ⟨ps, hps, hok⟩ := except_bind_ok hok
    obtain ⟨prods, hprods, hok⟩ := except_bind_ok hok
    cases hok
    constructor
    · intro hlk
      have hdm : dmem data "submissions" = false := by simp [dmem, hlk]
      rw [hdm] at hsubs
      simp only [Bool.false_eq_true, if_false] at hsubs
      cases hsubs
      rfl
    · intro hlk
      have hdm : dmem data "openfda" = false := by simp [dmem, hlk]
      rw [hdm] at hofda
      simp only [Bool.false_eq_true, if_false] at hofda
      cases hofda
      rfl
  · intro data nm sub hok
    unfold DrugsFdaLegacy._get_submission at hok
    obtain ⟨st, hst, hok⟩ := except_bind_ok hok
    obtain ⟨sn, hsn, hok⟩ := except_bind_ok hok
    obtain ⟨ss, hss, hok⟩ := except_bind_ok hok
    obtain ⟨ssd, hssd, hok⟩ := except_bind_ok hok
    obtain ⟨rp, hrp, hok⟩ := except_bind_ok hok
    obtain ⟨scc, hscc, hok⟩ := except_bind_ok hok
    obtain ⟨docs, hdocs, hok⟩ := except_bind_ok hok
    cases hok
    refine ⟨?_, ?_, ?_, ?_, ?_⟩
    · intro hlk
      have hdm : dmem data "submission_status" = false := by simp [dmem, hlk]
      rw [hdm] at hss
      simp only [Bool.false_eq_true, and_false, if_false] at hss
      cases hss
      show dget0 data "submission_status" = Val.null
      simp [dget0, hlk]
    · intro hlk
      have h0 : dget0 data "review_priority" = Val.null := by simp [dget0, hlk]
      rw [h0] at hrp
      cases nm with
      | false =>
        simp only [Bool.false_eq_true, if_false] at hrp
        cases hrp
        rfl
      | true =>
        simp only [if_true] at hrp
        simp [asStrOrNone, Except.map, DrugsFdaLegacy._enumify] at hrp
        exact hrp.symm
    · intro hlk
      have h0 : dget0 data "submission_class_code" = Val.null := by simp [dget0, hlk]
      rw [h0] at hscc
      cases nm with
      | false =>
        simp only [Bool.false_eq_true, if_false] at hscc
        cases hscc
        rfl
      | true =>
        simp only [if_true] at hscc
        simp [asStrOrNone, Except.map, DrugsFdaLegacy._enumify] at hscc
        exact hscc.symm
    · intro hlk
      show dget0 data "submission_class_code_description" = Val.null
      simp [dget0, hlk]
    · intro hlk
      have hdm : dmem data "application_docs" = false := by simp [dmem, hlk]
      rw [hdm] at hdocs
      simp only [Bool.false_eq_true, if_false] at hdocs
      cases hdocs
      rfl

/-- C8 witness: the theorem applied to concrete records with the
mandatory key missing and with optional keys missing. -/
theorem claim8_witness :
    DrugsFdaLegacy._get_result
        [("sponsor_name", Val.str "S"), ("products", Val.list [])] false ≠
      .ok (DrugsFdaLegacy.Result.mk none Val.null Val.null none []) ∧
    (DrugsFdaLegacy.Result.mk none (Val.str "A") (Val.str "S") none []).submissions = none ∧
    (DrugsFdaLegacy.Result.mk none (Val.str "A") (Val.str "S") none []).openfda = none ∧
    (DrugsFdaLegacy.Submission.mk (Val.str "ORIG") (Val.str "1") Val.null
        (Val.str "20230615") Val.null Val.null Val.null none).submission_status = Val.null :=
  ⟨claim8_required_optional.1 [("sponsor_name", Val.str "S"), ("products", Val.list [])] false rfl _,
   (claim8_required_optional.2.1 [("application_number", Val.str "A"), ("sponsor_name", Val.str "S"),
      ("products", Val.list [])] false
      (DrugsFdaLegacy.Result.mk none (Val.str "A") (Val.str "S") none []) rfl).1 rfl,
   (claim8_required_optional.2.1 [("application_number", Val.str "A"), ("sponsor_name", Val.str "S"),
      ("products", Val.list [])] false
      (DrugsFdaLegacy.Result.mk none (Val.str "A") (Val.str "S") none []) rfl).2 rfl,
   (claim8_required_optional.2.2.1 [("submission_type", Val.str "ORIG"), ("submission_number", Val.str "1"),
      ("submission_status_date", Val.str "20230615")] false
      (DrugsFdaLegacy.Submission.mk (Val.str "ORIG") (Val.str "1") Val.null
        (Val.str "20230615") Val.null Val.null Val.null none) rfl).1 rfl⟩

/-- C9 amended: with `normalize = false` every field with a declared
semantic type is passed through as the raw JSON value (or null when the
key is absent and optional): all six converted `Product` fields, all six
converted `Submission` fields, the `ApplicationDoc` date and type, and
the RxClass `relaSource`, `tty` and `classType` fields.  The single
exception, forced by the counterexample, is the RxClass `rela` field,
where a FALSY present value (the empty string) is mapped to null exactly
like an absent key; a truthy raw value is echoed unchanged. -/
theorem claim9_amended :
    (∀ (data : PyDict) (p : DrugsFdaLegacy.Product),
      DrugsFdaLegacy._get_product data false = .ok p →
      p.reference_drug = dget0 data "reference_drug" ∧
      p.reference_standard = dget0 data "reference_standard" ∧
      p.dosage_form = dget0 data "dosage_form" ∧
      p.route = dget0 data "route" ∧
      p.marketing_status = dget0 data "marketing_status" ∧
      p.te_code = dget0 data "te_code") ∧
    (∀ (data : PyDict) (sub : DrugsFdaLegacy.Submission),
      DrugsFdaLegacy._get_submission data false = .ok sub →
      sub.submission_type = dget0 data "submission_type" ∧
      sub.submission_number = dget0 data "submission_number" ∧
      sub.submission_status = dget0 data "submission_status" ∧
      sub.submission_status_date = dget0 data "submission_status_date" ∧
      sub.review_priority = dget0 data "review_priority" ∧
      sub.submission_class_code = dget0 data "submission_class_code") ∧
    (∀ (doc : PyDict) (l : List DrugsFdaLegacy.ApplicationDoc),
      DrugsFdaLegacy._get_application_docs [Val.dict doc] false = .ok l →
      ∃ d, l = [d] ∧ d.date = dget0 doc "date" ∧ d.type = dget0 doc "type") ∧
    (∀ (drug_info : PyDict) (cm km : PyDict) (e : RxClass.RxClassEntry),
      RxClass._get_rxclass_entry drug_info false = .ok e →
      (e.relation_source = dget0 drug_info "relaSource" ∧
        (¬ pyFalsy (dget0 drug_info "rela") → e.relation = dget0 drug_info "rela") ∧
        (pyFalsy (dget0 drug_info "rela") → e.relation = Val.null)) ∧
      (drug_info.lookup "minConcept" = some (Val.dict cm) →
        e.concept.term_type = dget0 cm "tty") ∧
      (drug_info.lookup "rxclassMinConceptItem" = some (Val.dict km) →
        e.drug_classification.class_type = dget0 km "classType")) := by
  refine ⟨?_, ?_, ?_, ?_⟩
  · intro data p hok
    unfold DrugsFdaLegacy._get_product at hok
    simp only [Bool.false_eq_true, false_and, if_false] at hok
    obtain ⟨rd, hrd, hok⟩ := except_bind_ok hok
    obtain ⟨rs, hrs, hok⟩ := except_bind_ok hok
    obtain ⟨df, hdf, hok⟩ := except_bind_ok hok
    obtain ⟨rt, hrt, hok⟩ := except_bind_ok hok
    obtain ⟨ms, hms, hok⟩ := except_bind_ok hok
    obtain ⟨tc, htc, hok⟩ := except_bind_ok hok
    obtain ⟨pn, hpn, hok⟩ := except_bind_ok hok
    obtain ⟨bn, hbn, hok⟩ := except_bind_ok hok
    obtain ⟨ail, hail, hok⟩ := except_bind_ok hok
    obtain ⟨ais, hais, hok⟩ := except_bind_ok hok
    cases hok
    cases hrs
    cases htc
    refine ⟨(dget_ok_dget0 hrd).symm, rfl, (dget_ok_dget0 hdf).symm, ?_,
      (dget_ok_dget0 hms).symm, rfl⟩
    rcases hroute : dget0 data "route" with _ | b | n | sstr | dd | ⟨cls, mem⟩ | xs | fs
    · rw [hroute] at hrt
      cases hrt
      rfl
    all_goals rw [hroute] at hrt
    all_goals
      have h2 := dget_ok_dget0 hrt
      rw [hroute] at h2
      exact h2.symm
  · intro data sub hok
    unfold DrugsFdaLegacy._get_submission at hok
    simp only [Bool.false_eq_true, false_and, if_false] at hok
    obtain ⟨st, hst, hok⟩ := except_bind_ok hok
    obtain ⟨sn, hsn, hok⟩ := except_bind_ok hok
    obtain ⟨ss, hss, hok⟩ := except_bind_ok hok
    obtain ⟨ssd, hssd, hok⟩ := except_bind_ok hok
    obtain ⟨rp, hrp, hok⟩ := except_bind_ok hok
    obtain ⟨scc, hscc, hok⟩ := except_bind_ok hok
    obtain ⟨docs, hdocs, hok⟩ := except_bind_ok hok
    cases hok
    cases hss
    cases hrp
    cases hscc
    exact ⟨(dget_ok_dget0 hst).symm, (dget_ok_dget0 hsn).symm, rfl,
      (dget_ok_dget0 hssd).symm, rfl, rfl⟩
  · intro doc l hok
    simp only [DrugsFdaLegacy._get_application_docs, Bool.false_eq_true, if_false,
      List.mapM, List.mapM.loop] at hok
    obtain ⟨d0, hd0, hok⟩ := except_bind_ok hok
    have hl : l = [d0] := by
      simpa [pure, Except.pure] using hok.symm
    have hdc : asDict (Val.dict doc) = .ok doc := rfl
    rw [hdc] at hd0
    obtain ⟨dd, hdd, hd0⟩ := except_bind_ok hd0
    cases hdd
    obtain ⟨idv, hid, hd0⟩ := except_bind_ok hd0
    obtain ⟨urlv, hurl, hd0⟩ := except_bind_ok hd0
    obtain ⟨datev, hdate, hd0⟩ := except_bind_ok hd0
    obtain ⟨tyv, hty, hd0⟩ := except_map_ok hd0
    refine ⟨d0, hl, ?_, ?_⟩
    · rw [← hd0]
      exact (dget_ok_dget0 hdate).symm
    · rw [← hd0]
      exact (dget_ok_dget0 hty).symm
  · intro drug_info cm km e hok
    unfold RxClass._get_rxclass_entry at hok
    obtain ⟨concept, hconc, hok⟩ := except_bind_ok hok
    obtain ⟨classif, hclass, hok⟩ := except_bind_ok hok
    obtain ⟨rel, hrel, hok⟩ := except_bind_ok hok
    obtain ⟨rsrc, hrsrc, hok⟩ := except_map_ok hok
    cases hok
    obtain ⟨rsv, hrsv, hrsrc⟩ := except_bind_ok hrsrc
    unfold RxClass._get_relation_source at hrsrc
    simp only [Bool.false_eq_true, if_false] at hrsrc
    cases hrsrc
    refine ⟨⟨(dget_ok_dget0 hrsv).symm, ?_, ?_⟩, ?_, ?_⟩
    · intro hnf
      unfold RxClass._get_relation at hrel
      rw [if_neg (by simpa using hnf)] at hrel
      simp only [Bool.false_eq_true, if_false] at hrel
      cases hrel
      rfl
    · intro hf
      unfold RxClass._get_relation at hrel
      rw [if_pos (by simpa using hf)] at hrel
      cases hrel
      rfl
    · intro hcm
      obtain ⟨cm2, hcm2, hconc⟩ := except_bind_ok hconc
      obtain ⟨cv, hcv, hcm2⟩ := except_bind_ok hcm2
      unfold dget at hcv
      rw [hcm] at hcv
      cases hcv
      cases hcm2
      unfold RxClass._get_concept at hconc
      obtain ⟨rx, hrx, hconc⟩ := except_bind_ok hconc
      obtain ⟨nm2, hnm2, hconc⟩ := except_bind_ok hconc
      obtain ⟨tty, htty, hconc⟩ := except_bind_ok hconc
      obtain ⟨tt, htt, hconc⟩ := except_map_ok hconc
      simp only [Bool.false_eq_true, if_false] at htt
      cases htt
      rw [← hconc]
      exact (dget_ok_dget0 htty).symm
    · intro hkm
      obtain ⟨km2, hkm2, hclass⟩ := except_bind_ok hclass
      obtain ⟨kv, hkv, hkm2⟩ := except_bind_ok hkm2
      unfold dget at hkv
      rw [hkm] at hkv
      cases hkv
      cases hkm2
      unfold RxClass._get_classification at hclass
      obtain ⟨ci, hci, hclass⟩ := except_bind_ok hclass
      obtain ⟨cn, hcn, hclass⟩ := except_bind_ok hclass
      obtain ⟨ctv, hctv, hclass⟩ := except_bind_ok hclass
      obtain ⟨ct, hct, hclass⟩ := except_map_ok hclass
      simp only [Bool.false_eq_true, if_false] at hct
      cases hct
      rw [← hclass]
      exact (dget_ok_dget0 hctv).symm

/-- C9 counterexample: a raw RxClass record carrying `"rela": ""` (key
present, with a falsy raw JSON value) assembles under `normalize = false`
with `relation = None`, not the unchanged raw value `""`. -/
theorem claim9_counterexample :
    (RxClass._get_rxclass_entry
        [("minConcept",
          Val.dict [("rxcui", Val.str "1"), ("name", Val.str "x"), ("tty", Val.str "IN")]),
         ("rxclassMinConceptItem",
          Val.dict [("classId", Val.str "c"), ("className", Val.str "n"),
                    ("classType", Val.str "VA")]),
         ("rela", Val.str ""), ("relaSource", Val.str "VA")] false).map
        (fun e => e.relation) = .ok Val.null ∧
      Val.null ≠ Val.str "" := by
  refine ⟨rfl, ?_⟩
  intro h
  exact Val.noConfusion h

/-- C9 witness: the amended passthrough theorem at concrete records. -/
theorem claim9_witness :
    (DrugsFdaLegacy.Product.mk (Val.str "1") (Val.str "Yes") (Val.str "B") [] Val.null
        (Val.str "TABLET") Val.null (Val.str "Rx") Val.null).dosage_form =
      dget0
        [("product_number", Val.str "1"), ("reference_drug", Val.str "Yes"),
         ("brand_name", Val.str "B"), ("active_ingredients", Val.list []),
         ("dosage_form", Val.str "TABLET"), ("marketing_status", Val.str "Rx")]
        "dosage_form" ∧
    (RxClass.RxClassEntry.mk
        (RxClass.DrugConcept.mk (Val.str "rxcui:1") (Val.str "x") (Val.str "IN"))
        (RxClass.DrugClassification.mk (Val.str "c") (Val.str "n") (Val.str "VA") Val.null)
        (Val.str "may_treat") (Val.str "VA")).relation_source =
      dget0
        [("minConcept",
          Val.dict [("rxcui", Val.str "1"), ("name", Val.str "x"), ("tty", Val.str "IN")]),
         ("rxclassMinConceptItem",
          Val.dict [("classId", Val.str "c"), ("className", Val.str "n"),
                    ("classType", Val.str "VA")]),
         ("rela", Val.str "may_treat"), ("relaSource", Val.str "VA")]
        "relaSource" :=
  ⟨((claim9_amended.1
      [("product_number", Val.str "1"), ("reference_drug", Val.str "Yes"),
       ("brand_name", Val.str "B"), ("active_ingredients", Val.list []),
       ("dosage_form", Val.str "TABLET"), ("marketing_status", Val.str "Rx")]
      (DrugsFdaLegacy.Product.mk (Val.str "1") (Val.str "Yes") (Val.str "B") [] Val.null
        (Val.str "TABLET") Val.null (Val.str "Rx") Val.null) (by rfl)).2.2.1),
   ((claim9_amended.2.2.2
      [("minConcept",
        Val.dict [("rxcui", Val.str "1"), ("name", Val.str "x"), ("tty", Val.str "IN")]),
       ("rxclassMinConceptItem",
        Val.dict [("classId", Val.str "c"), ("className", Val.str "n"),
                  ("classType", Val.str "VA")]),
       ("rela", Val.str "may_treat"), ("relaSource", Val.str "VA")]
      [] []
      (RxClass.RxClassEntry.mk
        (RxClass.DrugConcept.mk (Val.str "rxcui:1") (Val.str "x") (Val.str "IN"))
        (RxClass.DrugClassification.mk (Val.str "c") (Val.str "n") (Val.str "VA") Val.null)
        (Val.str "may_treat") (Val.str "VA")) (by rfl)).1.1)⟩

/-- C10: whenever `make_rxclass_request`'s response processing with
`include_snomedt = true` yields the assembled entry list, processing the
same response with `include_snomedt = false` yields exactly the entries
whose `relation_source` is not (string-)equal to
`RelationSource.SNOMEDCT`, as an order-preserving sublist containing
precisely the non-SNOMEDCT entries. -/
theorem claim10_snomed_filter (raw_data : Val) (normalize : Bool) (entries : List RxClass.RxClassEntry)
    (h : RxClass.processResponse raw_data true normalize = .ok entries) :
    RxClass.processResponse raw_data false normalize =
        .ok (entries.filter (fun r => !RxClass.isSnomedSource r.relation_source)) ∧
      List.Sublist (entries.filter (fun r => !RxClass.isSnomedSource r.relation_source))
        entries ∧
      (∀ r ∈ entries.filter (fun r => !RxClass.isSnomedSource r.relation_source),
        RxClass.isSnomedSource r.relation_source = false) ∧
      (∀ r ∈ entries, RxClass.isSnomedSource r.relation_source = false →
        r ∈ entries.filter (fun r => !RxClass.isSnomedSource r.relation_source)) := by
  refine ⟨?_, List.filter_sublist _, ?_, ?_⟩
  · unfold RxClass.processResponse at h ⊢
    by_cases hf : pyFalsy raw_data = true
    · rw [if_pos hf] at h ⊢
      cases h
      rfl
    · rw [if_neg hf] at h ⊢
      obtain ⟨pr, hpr, h⟩ := except_bind_ok h
      simp only [Bool.not_true, Bool.false_eq_true, if_false] at h
      cases h
      rw [hpr]
      simp [Bind.bind, Except.bind]
  · intro r hr
    simpa using (List.mem_filter.mp hr).2
  · intro r hr hns
    exact List.mem_filter.mpr ⟨hr, by simp [hns]⟩

/-- C10 witness: the filter theorem at a concrete two-entry response, one
entry SNOMEDCT-sourced. -/
theorem claim10_witness :
    RxClass.processResponse
        (Val.dict
          [("rxclassDrugInfoList",
            Val.dict
              [("rxclassDrugInfo",
                Val.list
                  [Val.dict
                    [("minConcept",
                      Val.dict [("rxcui", Val.str "1"), ("name", Val.str "a"),
                                ("tty", Val.str "IN")]),
                     ("rxclassMinConceptItem",
                      Val.dict [("classId", Val.str "c1"), ("className", Val.str "n1"),
                                ("classType", Val.str "VA")]),
                     ("rela", Val.str "may_treat"), ("relaSource", Val.str "snomedct")],
                   Val.dict
                    [("minConcept",
                      Val.dict [("rxcui", Val.str "2"), ("name", Val.str "b"),
                                ("tty", Val.str "IN")]),
                     ("rxclassMinConceptItem",
                      Val.dict [("classId", Val.str "c2"), ("className", Val.str "n2"),
                                ("classType", Val.str "VA")]),
                     ("rela", Val.str "may_treat"), ("relaSource", Val.str "MEDRT")]])])])
        false false =
      .ok
        ([RxClass.RxClassEntry.mk
            (RxClass.DrugConcept.mk (Val.str "rxcui:1") (Val.str "a") (Val.str "IN"))
            (RxClass.DrugClassification.mk (Val.str "c1") (Val.str "n1") (Val.str "VA")
              Val.null)
            (Val.str "may_treat") (Val.str "snomedct"),
          RxClass.RxClassEntry.mk
            (RxClass.DrugConcept.mk (Val.str "rxcui:2") (Val.str "b") (Val.str "IN"))
            (RxClass.DrugClassification.mk (Val.str "c2") (Val.str "n2") (Val.str "VA")
              Val.null)
            (Val.str "may_treat") (Val.str "MEDRT")].filter
          (fun r => !RxClass.isSnomedSource r.relation_source)) :=
  (claim10_snomed_filter
    (Val.dict
      [("rxclassDrugInfoList",
        Val.dict
          [("rxclassDrugInfo",
            Val.list
              [Val.dict
                [("minConcept",
                  Val.dict [("rxcui", Val.str "1"), ("name", Val.str "a"),
                            ("tty", Val.str "IN")]),
                 ("rxclassMinConceptItem",
                  Val.dict [("classId", Val.str "c1"), ("className", Val.str "n1"),
                            ("classType", Val.str "VA")]),
                 ("rela", Val.str "may_treat"), ("relaSource", Val.str "snomedct")],
               Val.dict
                [("minConcept",
                  Val.dict [("rxcui", Val.str "2"), ("name", Val.str "b"),
                            ("tty", Val.str "IN")]),
                 ("rxclassMinConceptItem",
                  Val.dict [("classId", Val.str "c2"), ("className", Val.str "n2"),
                            ("classType", Val.str "VA")]),
                 ("rela", Val.str "may_treat"), ("relaSource", Val.str "MEDRT")]])])])
    false
    [RxClass.RxClassEntry.mk
        (RxClass.DrugConcept.mk (Val.str "rxcui:1") (Val.str "a") (Val.str "IN"))
        (RxClass.DrugClassification.mk (Val.str "c1") (Val.str "n1") (Val.str "VA")
          Val.null)
        (Val.str "may_treat") (Val.str "snomedct"),
     RxClass.RxClassEntry.mk
        (RxClass.DrugConcept.mk (Val.str "rxcui:2") (Val.str "b") (Val.str "IN"))
        (RxClass.DrugClassification.mk (Val.str "c2") (Val.str "n2") (Val.str "VA")
          Val.null)
        (Val.str "may_treat") (Val.str "MEDRT")]
    (by rfl)).1
